import Mathlib

/-
Verification of the picatz/cbor Go library (encoder.go / decoder.go) against
its natural-language specification.

The Go source is shallowly embedded: the decoder's input stream is a list of
bytes (`List Nat`, each entry < 256 on every real input), reflect-typed
destinations become the closed type universe `RType` covering every
destination the claims exercise, and Go's `(value, error)` returns become the
`Res` type, which also records the bytes remaining in the stream and models a
Go runtime panic as `Res.crash`.  Function names follow the Go source
(`decodeUintD` embeds `Decoder.decodeUint`, etc.).
-/

set_option autoImplicit false
set_option linter.unusedVariables false

namespace PicatzCbor

/-- Go strings and byte slices, as their byte sequences (claims only use
ASCII data, so no UTF-8 subtleties arise). -/
abbrev GoStr := List Nat

/-- Basic (non-container) Go destination kinds used for struct fields.
`bInt` is Go `int`/`int64` (64-bit in this codebase), `bUInt` is `uint`/`uint64`. -/
inductive BasicTy where
  | bInt | bUint8 | bUInt | bFloat64 | bBool | bString
deriving DecidableEq, Repr

/-- A struct field as the decoder sees it via reflection: its Go name, its
optional `cbor:"..."` tag value, and its (basic) type.  Unexported fields and
fields whose only tags are non-cbor tags are outside the modelled universe
(no claim uses them). -/
structure StructField where
  name : GoStr
  cborTag : Option GoStr
  ty : BasicTy
deriving DecidableEq, Repr

/-- The reflect-type universe of destinations exercised by the claims:
`int`, `uint8`, `uint64`, `float64`, `bool`, `string`, slices, `map[string]string`,
and structs with basic-typed fields.  (`[]byte` is `rSlice rUint8`, exactly as
`[]uint8` in Go reflection.) -/
inductive RType where
  | rInt | rUint8 | rUInt | rFloat64 | rBool | rString
  | rSlice (elem : RType)
  | rMapSS
  | rStruct (fields : List StructField)
deriving DecidableEq, Repr

/-- Embedding of the basic types into the reflect universe. -/
def BasicTy.toR : BasicTy → RType
  | .bInt => .rInt
  | .bUint8 => .rUint8
  | .bUInt => .rUInt
  | .bFloat64 => .rFloat64
  | .bBool => .rBool
  | .bString => .rString

/-- Go `float64` values are modelled symbolically by the bit-level operation
that produced them, because no claim compares floating-point arithmetic
results: `ofBits64 b` is `math.Float64frombits b`, `widen32 b` is
`float64(math.Float32frombits b)` (the decoder also feeds 16-bit patterns
through this path in `readFloat16`), and `ofNat n` is Go's `float64(n)` for a
byte `n` (the fallback branch of `readFloat`). -/
inductive GoFloat64 where
  | ofBits64 (b : Nat)
  | widen32 (b : Nat)
  | ofNat (n : Nat)
deriving DecidableEq, Repr

/-- Host values populating destinations of the `RType` universe.  A Go nil
slice and an empty slice are both `slice []` (the distinction is never
observed by a claim); map values record entries in first-insertion order with
in-place overwrite, matching lookup semantics of a Go map. -/
inductive RValue where
  | int (n : Int)
  | uint (n : Nat)
  | float (f : GoFloat64)
  | bool (b : Bool)
  | str (s : GoStr)
  | slice (xs : List RValue)
  | mapSS (entries : List (GoStr × GoStr))
  | structV (fields : List (GoStr × RValue))
deriving Repr

/-- The zero Go value of each modelled type (what a fresh destination holds). -/
def zeroBasic : BasicTy → RValue
  | .bInt => .int 0
  | .bUint8 => .uint 0
  | .bUInt => .uint 0
  | .bFloat64 => .float (.ofBits64 0)
  | .bBool => .bool false
  | .bString => .str []

/-- Errors returned by the library, one constructor per distinct `errors.New` /
`fmt.Errorf` site that the embedding can reach.  `wrapped e` is the
`fmt.Errorf("cbor: Decode(%v): %v", ...)` wrapper applied by `Decoder.Decode`;
`cannotUnmarshalMapKeyInto e` is the wrapper at decoder.go:1028.
`outOfFuel` and `tagBranchNotModelled` are embedding artifacts that no theorem
relies on (see `decodeTagBody`). -/
inductive GoErr where
  | eof                                   -- io.EOF from io.ReadFull
  | unexpectedEof                         -- io.ErrUnexpectedEOF
  | decodeNonPointer (t : RType)          -- "cbor: Decode(non-pointer T)"
  | decodeNilPointer (t : RType)          -- "cbor: Decode(nil *T)"
  | wrapped (e : GoErr)                   -- "cbor: Decode(%v): %v"
  | invalidMajorType                      -- "cbor: invalid major type"
  | invalidSimpleValue (ai : Nat)         -- "cbor: invalid simple value: %v"
  | float16NotSupported                   -- "cbor: float16 not supported"
  | cannotUnmarshalUintInto (t : RType)
  | cannotUnmarshalIntInto (t : RType)
  | byteStringTooLong                     -- "cbor: byte string too long"
  | cannotUnmarshalByteStringInto (t : RType)
  | stringTooLong                         -- "cbor: string too long" (MaxInt32 check)
  | cannotUnmarshalStringInto (t : RType)
  | arrayTooLong                          -- "cbor: array too long" (the limit error)
  | wrongArrayLength                      -- "cbor: wrong array length"
  | cannotUnmarshalArrayInto (t : RType)
  | cannotUnmarshalMapInto (t : RType)
  | cannotUnmarshalMapKeyInto (e : GoErr) -- wrapper at decoder.go:1028
  | unknownTag (n : Nat)                  -- "cbor: unknown tag N"
  | invalidArrayHeader (b : Nat)          -- "cbor: invalid array header: %X"
  | invalidMapHeader                      -- "cbor: invalid map header"
  | invalidBoolean                        -- "cbor: invalid boolean value"
  | invalidIntegerValue (b : Nat)         -- "cbor: invalid integer value: %X"
  | invalidStringValue (b : Nat)          -- "cbor: invalid string value: %X"
  | stringTooLarge (n : Int)              -- "cbor: string too large: %d bytes"
  | invalidMapKey (b : Nat)               -- "cbor: invalid map key: %X"
  | invalidValue (b : Nat)                -- "cbor: invalid value: %X"
  | unknownField (k : GoStr)              -- "cbor: unknown field " + key
  | integerOutOfRange (v : Int)           -- "cbor: integer out of range: %d"
  | tagBranchNotModelled (n : Nat)        -- embedding artifact, never proved about
  | outOfFuel                             -- embedding artifact, never proved about
deriving DecidableEq, Repr

/-- Result of running a piece of the decoder: a value plus the bytes left in
the stream, an error return plus the bytes left (Go streams keep whatever was
already consumed), or a Go runtime panic (`crash`). -/
inductive Res (α : Type) where
  | ok (a : α) (rest : List Nat)
  | fail (e : GoErr) (rest : List Nat)
  | crash (msg : String)
deriving Repr

/-- Sequencing for `Res`: continue only on success, threading the stream. -/
def Res.then {α β : Type} : Res α → (α → List Nat → Res β) → Res β
  | .ok a rest, k => k a rest
  | .fail e rest, _ => .fail e rest
  | .crash m, _ => .crash m

/-- Per-decoder limits (`maxArrayElements` etc. in the `Decoder` struct).
They are Go `int`s; all claims use non-negative values, modelled as `Nat`. -/
structure Limits where
  maxArrayElements : Nat
  maxMapPairs : Nat
  maxStringBytes : Nat
  maxBytes : Nat
deriving DecidableEq, Repr

/-- `DefaultMaxValue = 1000000`, applied to all four limits by `NewDecoder`. -/
def defaultLimits : Limits :=
  { maxArrayElements := 1000000, maxMapPairs := 1000000
    maxStringBytes := 1000000, maxBytes := 1000000 }

/-- Go `int64(n)` for `n` a `uint64` value (two's-complement reinterpretation). -/
def i64 (n : Nat) : Int :=
  if n < 2 ^ 63 then (n : Int) else (n : Int) - 2 ^ 64

/-- `Decoder.readByte`: `io.ReadFull` of one byte; an empty source yields `io.EOF`. -/
def readByte : List Nat → Res Nat
  | [] => .fail .eof []
  | b :: rest => .ok b rest

/-- Structural core of `readN`. -/
def readNGo : Nat → List Nat → Res (List Nat)
  | 0, s => .ok [] s
  | _ + 1, [] => .fail .unexpectedEof []
  | n + 1, b :: s => (readNGo n s).then fun bs rest => .ok (b :: bs) rest

/-- `io.ReadFull` of `n` bytes: `io.EOF` when the source is already empty,
`io.ErrUnexpectedEOF` on a partial read. -/
def readN (n : Nat) : List Nat → Res (List Nat)
  | [] => if n = 0 then .ok [] [] else .fail .eof []
  | b :: s => readNGo n (b :: s)

/-- `Decoder.readUint8`. -/
def readUint8 (s : List Nat) : Res Nat :=
  (readByte s).then fun b rest => .ok b rest

/-- `Decoder.readUint16`: two bytes, big-endian, combined with shifts and ors
exactly as in the source. -/
def readUint16 (s : List Nat) : Res Nat :=
  (readN 2 s).then fun bs rest =>
    match bs with
    | [b0, b1] => .ok (b0 <<< 8 ||| b1) rest
    | _ => .crash "readUint16: impossible"

/-- `Decoder.readUint32`. -/
def readUint32 (s : List Nat) : Res Nat :=
  (readN 4 s).then fun bs rest =>
    match bs with
    | [b0, b1, b2, b3] => .ok (b0 <<< 24 ||| b1 <<< 16 ||| b2 <<< 8 ||| b3) rest
    | _ => .crash "readUint32: impossible"

/-- `Decoder.readUint64`. -/
def readUint64 (s : List Nat) : Res Nat :=
  (readN 8 s).then fun bs rest =>
    match bs with
    | [b0, b1, b2, b3, b4, b5, b6, b7] =>
        .ok (b0 <<< 56 ||| b1 <<< 48 ||| b2 <<< 40 ||| b3 <<< 32 |||
             b4 <<< 24 ||| b5 <<< 16 ||| b6 <<< 8 ||| b7) rest
    | _ => .crash "readUint64: impossible"

/-- `Decoder.readHeader`: major type `b >> 5` and additional info `b & 0x1f`. -/
def readHeader (s : List Nat) : Res (Nat × Nat) :=
  (readByte s).then fun b rest => .ok (b >>> 5, b &&& 0x1f) rest

/-- The shared argument-reading idiom of `decodeUint`/`decodeBytes`/
`decodeString`/`decodeArray`/`decodeMap`/`decodeTag`: ai 24/25/26/27 read a
1/2/4/8-byte big-endian argument, anything else (including the reserved
values 28-30 and the indefinite marker 31) is used as the immediate argument. -/
def readArgument (ai : Nat) (s : List Nat) : Res Nat :=
  if ai = 24 then readUint8 s
  else if ai = 25 then readUint16 s
  else if ai = 26 then readUint32 s
  else if ai = 27 then readUint64 s
  else .ok ai s

/-- `Decoder.readInt` (decoder.go:1704).  Note the source's case order: the
`0x1A`/`0x1B` checks come first, so heads `0x18`..`0x1F` other than those two
fall into the `b & 0x1f` branch and are returned as immediate values without
their payload being read; heads `0x20`/`0x21`/`0x22` (negative-integer heads)
read an 8, 4, and 8 byte unsigned payload respectively and never negate. -/
def readInt (s : List Nat) : Res Int :=
  (readByte s).then fun b rest =>
    if b = 0x1A then (readUint32 rest).then fun n r => .ok (Int.ofNat n) r
    else if b = 0x1B then (readUint64 rest).then fun n r => .ok (i64 n) r
    else if b ≤ 0x17 then .ok (Int.ofNat b) rest
    else if 0x18 ≤ b ∧ b ≤ 0x1f then .ok (Int.ofNat (b &&& 0x1f)) rest
    else if b = 0x20 then (readUint64 rest).then fun n r => .ok (i64 n) r
    else if b = 0x21 then (readUint32 rest).then fun n r => .ok (Int.ofNat n) r
    else if b = 0x22 then (readUint64 rest).then fun n r => .ok (i64 n) r
    else .fail (.invalidIntegerValue b) rest

/-- `Decoder.readUint` (decoder.go:1757).  The default branch returns the head
byte itself as the value (the error return is commented out in the source). -/
def readUint (s : List Nat) : Res Nat :=
  (readByte s).then fun b rest =>
    if b ≤ 0x17 then .ok b rest
    else if 0x18 ≤ b ∧ b ≤ 0x1f then .ok (b &&& 0x1f) rest
    else if b = 0x20 then readUint16 rest
    else if b = 0x21 then readUint32 rest
    else if b = 0x22 then readUint64 rest
    else .ok b rest

/-- `Decoder.readBool` (decoder.go:1688). -/
def readBool (s : List Nat) : Res Bool :=
  (readByte s).then fun b rest =>
    if b = 0xf4 then .ok false rest
    else if b = 0xf5 then .ok true rest
    else .fail .invalidBoolean rest

/-- `Decoder.readFloat16` (decoder.go:1813): the two half-precision bytes are
fed to `math.Float32frombits(uint32(b))`, i.e. interpreted as the *low* 16
bits of a float32 pattern — not as a binary16 value. -/
def readFloat16 (s : List Nat) : Res GoFloat64 :=
  (readUint16 s).then fun b rest => .ok (.widen32 b) rest

/-- `Decoder.readFloat32` (decoder.go:1822). -/
def readFloat32 (s : List Nat) : Res GoFloat64 :=
  (readUint32 s).then fun b rest => .ok (.widen32 b) rest

/-- `Decoder.readFloat64` (decoder.go:1831). -/
def readFloat64 (s : List Nat) : Res GoFloat64 :=
  (readUint64 s).then fun b rest => .ok (.ofBits64 b) rest

/-- `Decoder.readFloat` (decoder.go:1792): heads F9/FA/FB dispatch to the
three width readers; any other head byte is itself converted to `float64`. -/
def readFloat (s : List Nat) : Res GoFloat64 :=
  (readByte s).then fun b rest =>
    if b = 0xf9 then readFloat16 rest
    else if b = 0xfa then readFloat32 rest
    else if b = 0xfb then readFloat64 rest
    else .ok (.ofNat b) rest

/-- `Decoder.readStringBytes` (decoder.go:1870): length 0 short-circuits, a
length above `maxStringBytes` errors, a negative length would reach
`make([]byte, n)` and panic. -/
def readStringBytes (L : Limits) (n : Int) (s : List Nat) : Res GoStr :=
  if n = 0 then .ok [] s
  else if (L.maxStringBytes : Int) < n then .fail (.stringTooLarge n) s
  else if n < 0 then .crash "runtime error: makeslice: len out of range"
  else readN n.toNat s

/-- `Decoder.readString` (decoder.go:1840).  The `b == 0x7f` arm of the source
is unreachable (subsumed by the `0x78..0x7f` range) and is therefore absent. -/
def readString (L : Limits) (s : List Nat) : Res GoStr :=
  (readByte s).then fun b rest =>
    if 0x60 ≤ b ∧ b ≤ 0x77 then readStringBytes L (Int.ofNat (b &&& 0x1f)) rest
    else if 0x78 ≤ b ∧ b ≤ 0x7f then
      (readInt rest).then fun n r => readStringBytes L n r
    else if b = 0xf6 then .ok [] rest
    else .fail (.invalidStringValue b) rest

/-- `Decoder.readArrayHeader` (decoder.go:1653): immediate lengths `0x80..0x8f`,
the indefinite marker `0x9f` (followed by `readInt`!), and — labelled
"handle []byte" — byte-string heads `0x40..0x5f`.  Multi-byte array length
heads (`0x98..0x9b`) are rejected as invalid. -/
def readArrayHeader (s : List Nat) : Res Int :=
  (readByte s).then fun b rest =>
    if 0x80 ≤ b ∧ b ≤ 0x8f then .ok (Int.ofNat (b &&& 0x0f)) rest
    else if b = 0x9f then readInt rest
    else if 0x40 ≤ b ∧ b ≤ 0x5f then .ok (Int.ofNat (b &&& 0x1f)) rest
    else .fail (.invalidArrayHeader b) rest

/-- `Decoder.readMapHeader` (decoder.go:1672). -/
def readMapHeader (s : List Nat) : Res Int :=
  (readByte s).then fun b rest =>
    if 0xa0 ≤ b ∧ b ≤ 0xaf then .ok (Int.ofNat (b &&& 0x0f)) rest
    else if b = 0xbf then readInt rest
    else .fail .invalidMapHeader rest

/-- The dynamic values `readMapKey`/`readValue` can produce (Go `any`). -/
inductive MapKey where
  | kInt (n : Int)
  | kStr (s : GoStr)
  | kBytes (bs : GoStr)
  | kBool (b : Bool)
  | kArr                     -- the literal `[]any{}` returned for head 0xf8
  | kMap                     -- the literal `map[any]any{}` for head 0xf9
  | kNil
deriving DecidableEq, Repr

/-- `Decoder.readMapKey` (decoder.go:1890), transcribed in source case order
(later duplicate arms for `0x7f`/`0x3f` are unreachable and absent). -/
def readMapKey (L : Limits) (s : List Nat) : Res MapKey :=
  (readByte s).then fun b rest =>
    if b ≤ 0x17 then .ok (.kInt (Int.ofNat b)) rest
    else if 0x18 ≤ b ∧ b ≤ 0x1f then .ok (.kInt (Int.ofNat (b &&& 0x1f))) rest
    else if b = 0x20 then (readUint16 rest).then fun n r => .ok (.kInt (Int.ofNat n)) r
    else if b = 0x21 then (readUint32 rest).then fun n r => .ok (.kInt (Int.ofNat n)) r
    else if b = 0x22 then (readUint64 rest).then fun n r => .ok (.kInt (i64 n)) r
    else if 0x30 ≤ b ∧ b ≤ 0x37 then
      (readStringBytes L (Int.ofNat (b &&& 0x1f)) rest).then fun v r => .ok (.kStr v) r
    else if 0x38 ≤ b ∧ b ≤ 0x3f then
      (readStringBytes L (Int.ofNat (b &&& 0x1f)) rest).then fun v r => .ok (.kStr v) r
    else if b = 0x7f then
      (readInt rest).then fun n r =>
        (readStringBytes L n r).then fun v r2 => .ok (.kStr v) r2
    else if b = 0xf6 then .ok (.kStr []) rest
    else if b = 0xf7 then .ok (.kBytes []) rest
    else if b = 0xf8 then .ok .kArr rest
    else if b = 0xf9 then .ok .kMap rest
    else if b = 0xfa then .ok .kNil rest
    else if b = 0xfb then .ok .kNil rest
    else if b = 0xff then .ok .kNil rest
    else if b = 0x40 then .ok (.kBool false) rest
    else if 0x60 ≤ b ∧ b ≤ 0x77 then
      (readStringBytes L (Int.ofNat (b &&& 0x1f)) rest).then fun v r => .ok (.kStr v) r
    else if 0x78 ≤ b ∧ b ≤ 0x7f then
      (readInt rest).then fun n r =>
        (readStringBytes L n r).then fun v r2 => .ok (.kStr v) r2
    else .fail (.invalidMapKey b) rest

/-- `Decoder.readValue` (decoder.go:2020), the discard-reader used for
unmatched struct keys.  Only small-integer and byte-string-like heads are
handled; every other head (text strings, arrays, maps, ...) hits the default
error branch. -/
def readValue (L : Limits) (s : List Nat) : Res MapKey :=
  (readByte s).then fun b rest =>
    if b ≤ 0x17 then .ok (.kInt (Int.ofNat b)) rest
    else if 0x18 ≤ b ∧ b ≤ 0x1f then .ok (.kInt (Int.ofNat (b &&& 0x1f))) rest
    else if b = 0x20 then (readUint16 rest).then fun n r => .ok (.kInt (Int.ofNat n)) r
    else if b = 0x21 then (readUint32 rest).then fun n r => .ok (.kInt (Int.ofNat n)) r
    else if b = 0x22 then (readUint64 rest).then fun n r => .ok (.kInt (i64 n)) r
    else if 0x30 ≤ b ∧ b ≤ 0x37 then
      (readStringBytes L (Int.ofNat (b &&& 0x1f)) rest).then fun v r => .ok (.kStr v) r
    else if 0x38 ≤ b ∧ b ≤ 0x3f then
      (readStringBytes L (Int.ofNat (b &&& 0x1f)) rest).then fun v r => .ok (.kStr v) r
    else .fail (.invalidValue b) rest

/-- Go `strconv.Itoa` on the decimal representation, as a byte string. -/
def itoa (n : Int) : GoStr :=
  (toString n).data.map Char.toNat

/-- The package-level `toString` helper (decoder.go:1977) restricted to the
dynamic values `readMapKey` can actually produce.  `fmt.Sprintf("%v", ...)`
of the empty `[]any`/`map[any]any` literals renders as "[]" and "map[]". -/
def keyToString : MapKey → GoStr
  | .kStr v => v
  | .kBytes bs => bs
  | .kInt n => itoa n
  | .kBool b => if b then (String.data "true").map Char.toNat
                else (String.data "false").map Char.toNat
  | .kNil => (String.data "null").map Char.toNat
  | .kArr => (String.data "[]").map Char.toNat
  | .kMap => (String.data "map[]").map Char.toNat

/-- `strings.Index(tag, ",keyasint")`-style search: the byte position of the
first occurrence of `pat` in `s`, if any. -/
def findSub (pat s : GoStr) : Option Nat :=
  let rec go : GoStr → Nat → Option Nat
    | t, i => if pat.isPrefixOf t then some i
              else match t with
                   | [] => none
                   | _ :: t' => go t' (i + 1)
  termination_by t _ => t.length
  go s 0

/-- The `,keyasint` suffix as bytes. -/
def keyasintPat : GoStr := (String.data ",keyasint").map Char.toNat

/-- The selector under which a struct field is stored in the field cache
(decoder.go:983-1010): no tag at all keys the field by its Go name; a
`cbor:"N,keyasint"` tag keys it by the digits before `,keyasint`; any other
`cbor:"..."` tag keys it by the tag value. -/
def fieldSelector (f : StructField) : GoStr :=
  match f.cborTag with
  | none => f.name
  | some tag =>
    match findSub keyasintPat tag with
    | some idx => tag.take idx
    | none => tag

/-- The field cache of `decodeMap`'s struct branch: selector → field index,
in declaration order (later duplicate selectors overwrite, as for a Go map). -/
def buildFieldCache (fields : List StructField) : List (GoStr × Nat) :=
  (fields.enum.map fun (i, f) => (fieldSelector f, i)).foldl
    (fun acc e =>
      if acc.any (fun e' => e'.1 = e.1)
      then acc.map (fun e' => if e'.1 = e.1 then e else e')
      else acc ++ [e])
    []

/-- Assoc-list lookup (a Go map read). -/
def alistFind {β : Type} (k : GoStr) : List (GoStr × β) → Option β
  | [] => none
  | (k', v) :: t => if k' = k then some v else alistFind k t

/-- Assoc-list write with overwrite (a Go map write / `SetMapIndex`). -/
def alistSet {β : Type} (k : GoStr) (v : β) : List (GoStr × β) → List (GoStr × β)
  | [] => [(k, v)]
  | (k', v') :: t => if k' = k then (k, v) :: t else (k', v') :: alistSet k v t

/-- ASCII `strings.EqualFold`, sufficient for the all-ASCII field names in
scope (used by `decodeStruct`'s `FieldByNameFunc`). -/
def asciiFoldEq (a b : GoStr) : Bool :=
  let low := fun c => if 65 ≤ c ∧ c ≤ 90 then c + 32 else c
  a.map low = b.map low

/-- Go `byte(x)` for a non-negative quantity: the low 8 bits. -/
def lowByte (n : Nat) : Nat := n &&& 0xFF

/-- `Encoder.writeBool`. -/
def writeBool (v : Bool) : List Nat := if v then [0xf5] else [0xf4]

/-- `Encoder.writeNull`. -/
def writeNull : List Nat := [0xf6]

/-- `Encoder.writeInt` (encoder part, lines 71-90): ranges `0..23`, `24..255`,
`256..65535`, `65536..2^32-1`, `2^32..MaxInt64-1`; everything else — all
negative values and `MaxInt64` itself — falls through to the
"integer out of range" error. -/
def writeInt (v : Int) : Except GoErr (List Nat) :=
  if 0 ≤ v ∧ v ≤ 23 then .ok [v.toNat]
  else if 24 ≤ v ∧ v ≤ 255 then .ok [0x18, v.toNat]
  else if 256 ≤ v ∧ v ≤ 65535 then
    .ok [0x19, lowByte (v.toNat >>> 8), lowByte v.toNat]
  else if 65536 ≤ v ∧ v ≤ 4294967295 then
    .ok [0x1a, lowByte (v.toNat >>> 24), lowByte (v.toNat >>> 16),
         lowByte (v.toNat >>> 8), lowByte v.toNat]
  else if 4294967296 ≤ v ∧ v ≤ 2 ^ 63 - 2 then
    .ok [0x1b, lowByte (v.toNat >>> 56), lowByte (v.toNat >>> 48),
         lowByte (v.toNat >>> 40), lowByte (v.toNat >>> 32),
         lowByte (v.toNat >>> 24), lowByte (v.toNat >>> 16),
         lowByte (v.toNat >>> 8), lowByte v.toNat]
  else .error (.integerOutOfRange v)

/-- `Encoder.writeUint` (lines 93-112); `MaxUint64` itself is out of range. -/
def writeUint (v : Nat) : Except GoErr (List Nat) :=
  if v ≤ 23 then .ok [v]
  else if 24 ≤ v ∧ v ≤ 255 then .ok [0x18, v]
  else if 256 ≤ v ∧ v ≤ 65535 then .ok [0x19, lowByte (v >>> 8), lowByte v]
  else if 65536 ≤ v ∧ v ≤ 4294967295 then
    .ok [0x1a, lowByte (v >>> 24), lowByte (v >>> 16), lowByte (v >>> 8), lowByte v]
  else if 4294967296 ≤ v ∧ v ≤ 2 ^ 64 - 2 then
    .ok [0x1b, lowByte (v >>> 56), lowByte (v >>> 48), lowByte (v >>> 40),
         lowByte (v >>> 32), lowByte (v >>> 24), lowByte (v >>> 16),
         lowByte (v >>> 8), lowByte v]
  else .error (.integerOutOfRange (i64 v))

/-- `Encoder.writeFloat` (lines 115-126): always the 8-byte form `FB` +
`math.Float64bits(v)` big-endian.  Only a value whose bit pattern the
symbolic `GoFloat64` model carries directly can be serialised; the widening
cases never arise in any theorem below. -/
def writeFloat (f : GoFloat64) : Except GoErr (List Nat) :=
  match f with
  | .ofBits64 b =>
    .ok [0xfb, lowByte (b >>> 56), lowByte (b >>> 48), lowByte (b >>> 40),
         lowByte (b >>> 32), lowByte (b >>> 24), lowByte (b >>> 16),
         lowByte (b >>> 8), lowByte b]
  | _ => .error (.tagBranchNotModelled 0)

/-- `Encoder.writeString` (lines 129-142): always the head `0x78` followed by
`byte(len(v))` — the length is truncated to its low 8 bits — then the bytes. -/
def writeString (v : GoStr) : List Nat :=
  0x78 :: lowByte v.length :: v

/-- `Encoder.Encode` (lines 23-52) together with `writeArray` (head `0x98`,
`byte(len)`), `writeMap` (head `0xb8`, `byte(len)`, then key/value pairs; the
assoc-list order stands in for Go's map iteration order) and `writeStruct`
(head `0xb8`, `byte(NumField)`, then the *field values only* — the source
writes no field names).  Fuel bounds the recursion through containers. -/
def Encode : Nat → RValue → Except GoErr (List Nat)
  | _, .bool v => .ok (writeBool v)
  | _, .int v => writeInt v
  | _, .uint v => writeUint v
  | _, .float f => writeFloat f
  | _, .str v => .ok (writeString v)
  | 0, _ => .error .outOfFuel
  | fuel + 1, .slice xs =>
    (xs.foldlM (fun acc x => (Encode fuel x).map (acc ++ ·)) [])
      |>.map ([0x98, lowByte xs.length] ++ ·)
  | fuel + 1, .mapSS entries =>
    (entries.foldlM
        (fun acc (e : GoStr × GoStr) => do
          let k ← Encode fuel (.str e.1)
          let v ← Encode fuel (.str e.2)
          pure (acc ++ k ++ v)) ([] : List Nat))
      |>.map ([0xb8, lowByte entries.length] ++ ·)
  | fuel + 1, .structV fields =>
    (fields.foldlM (fun acc f => (Encode fuel f.2).map (acc ++ ·)) [])
      |>.map ([0xb8, lowByte fields.length] ++ ·)

/-- The zero value of every modelled reflect type (a Go nil slice and nil map
are `slice []` / `mapSS []`). -/
def zeroR : RType → RValue
  | .rInt => .int 0
  | .rUint8 => .uint 0
  | .rUInt => .uint 0
  | .rFloat64 => .float (.ofBits64 0)
  | .rBool => .bool false
  | .rString => .str []
  | .rSlice _ => .slice []
  | .rMapSS => .mapSS []
  | .rStruct fields => .structV (fields.map fun f => (f.name, zeroBasic f.ty))

/-- `Decoder.decodeBasic` (decoder.go:1609), the leaf of the inner `decode`
dispatcher.  `SetUint` into a `uint8` destination truncates to 8 bits. -/
def decodeBasic (L : Limits) (t : BasicTy) (s : List Nat) : Res RValue :=
  match t with
  | .bBool => (readBool s).then fun b r => .ok (.bool b) r
  | .bInt => (readInt s).then fun n r => .ok (.int n) r
  | .bUint8 => (readUint s).then fun n r => .ok (.uint (n % 256)) r
  | .bUInt => (readUint s).then fun n r => .ok (.uint n) r
  | .bFloat64 => (readFloat s).then fun f r => .ok (.float f) r
  | .bString => (readString L s).then fun v r => .ok (.str v) r

/-- `Decoder.decodeUint` (decoder.go:479) for the modelled destination kinds:
unsigned kinds take the argument via `SetUint` (truncating for `uint8`),
signed kinds take `int64(n)` via `SetInt`; every other kind is the
"cannot unmarshal uint into" error.  (The `Interface` and `Ptr` arms of the
source concern destination types outside the modelled universe.) -/
def decodeUintD (t : RType) (ai : Nat) (s : List Nat) : Res RValue :=
  (readArgument ai s).then fun n rest =>
    match t with
    | .rUint8 => .ok (.uint (n % 256)) rest
    | .rUInt => .ok (.uint n) rest
    | .rInt => .ok (.int (i64 n)) rest
    | _ => .fail (.cannotUnmarshalUintInto t) rest

/-- `Decoder.decodeInt` (decoder.go:563): the argument is read exactly as in
`decodeUint` (through a `*uint64`), then a signed destination receives
`-1 - int64(n)`. -/
def decodeIntD (t : RType) (ai : Nat) (s : List Nat) : Res RValue :=
  (readArgument ai s).then fun n rest =>
    match t with
    | .rInt => .ok (.int (-1 - i64 n)) rest
    | _ => .fail (.cannotUnmarshalIntInto t) rest

/-- `Decoder.decodeBytes` (decoder.go:591): the `math.MaxInt32` and `maxBytes`
checks both produce the same "byte string too long" error; the payload is
read *before* the destination kind is examined. -/
def decodeBytesD (L : Limits) (t : RType) (ai : Nat) (s : List Nat) : Res RValue :=
  (readArgument ai s).then fun n rest =>
    if 2 ^ 31 - 1 < n then .fail .byteStringTooLong rest
    else if L.maxBytes < n then .fail .byteStringTooLong rest
    else (readN n rest).then fun buf r =>
      match t with
      | .rSlice .rUint8 => .ok (.slice (buf.map .uint)) r
      | _ => .fail (.cannotUnmarshalByteStringInto t) r

/-- `Decoder.decodeString` (decoder.go:639): only the `MaxInt32` bound is
checked — the `maxStringBytes` limit is *not* consulted on this path (the
source carries a TODO).  The `*string` pointer arm concerns types outside the
universe. -/
def decodeStringD (t : RType) (ai : Nat) (s : List Nat) : Res RValue :=
  (readArgument ai s).then fun n rest =>
    if 2 ^ 31 - 1 < n then .fail .stringTooLong rest
    else (readN n rest).then fun buf r =>
      match t with
      | .rString => .ok (.str buf) r
      | _ => .fail (.cannotUnmarshalStringInto t) r

/-- `rv.SetBool` for the False/True arms of `decodeSimpleValue`: a non-bool
destination makes reflect panic.  (The pointer-to-bool special case of the
source concerns pointer destinations outside the universe.) -/
def setBoolRes (t : RType) (v : Bool) (s : List Nat) : Res RValue :=
  match t with
  | .rBool => .ok (.bool v) s
  | _ => .crash "reflect: call of reflect.Value.SetBool on non-bool Value"

/-- `Decoder.decodeSimpleValue` (decoder.go:395).  Null zeroes the
destination; Undefined leaves it untouched (hence, for the fresh destinations
modelled here, at its zero value); Float16 (ai 25) is rejected outright with
"cbor: float16 not supported" *without consuming its 2-byte payload*;
Float32/Float64 set a float destination and panic via `reflect.Set` on any
other modelled kind; every remaining ai is "invalid simple value". -/
def decodeSimpleValueD (t : RType) (ai : Nat) (s : List Nat) : Res RValue :=
  if ai = 20 then setBoolRes t false s
  else if ai = 21 then setBoolRes t true s
  else if ai = 22 then .ok (zeroR t) s
  else if ai = 23 then .ok (zeroR t) s
  else if ai = 25 then .fail .float16NotSupported s
  else if ai = 26 then
    (readUint32 s).then fun b r =>
      match t with
      | .rFloat64 => .ok (.float (.widen32 b)) r
      | _ => .crash "reflect: reflect.Value.Set of incompatible value"
  else if ai = 27 then
    (readUint64 s).then fun b r =>
      match t with
      | .rFloat64 => .ok (.float (.ofBits64 b)) r
      | _ => .crash "reflect: reflect.Value.Set of incompatible value"
  else .fail (.invalidSimpleValue ai) s

/-- The tag numbers with a dedicated `case` in `Decoder.decodeTag`
(decoder.go:1074-1511): 0-5 and 21-29.  Every other tag number reaches the
`default` branch. -/
def knownTagNumbers : List Nat := [0, 1, 2, 3, 4, 5, 21, 22, 23, 24, 25, 26, 27, 28, 29]

/-- The body of `Decoder.decodeTag` after the tag number `n` has been read.
The `default` branch — the one every claim about tags concerns — is embedded
faithfully: it returns the error "cbor: unknown tag N" and consumes nothing
further.  The fifteen recognised-tag branches call host facilities
(`big.Int`/`big.Rat`/`big.Float` arithmetic, `url.Parse`, `base64`,
`regexp.Compile`, `mail.ReadMessage`) and bind to destination types
(`*big.Int`, `*url.URL`, ...) outside the modelled universe; they are
represented by the sentinel `tagBranchNotModelled`, and no theorem in this
file states anything about that arm. -/
def decodeTagBody (t : RType) (n : Nat) (s : List Nat) : Res RValue :=
  if n ∈ knownTagNumbers then .fail (.tagBranchNotModelled n) s
  else .fail (.unknownTag n) s

/-- `Decoder.decodeTag` (decoder.go:1054): read the tag number like any other
argument, then dispatch on it. -/
def decodeTagD (t : RType) (ai : Nat) (s : List Nat) : Res RValue :=
  (readArgument ai s).then fun n rest => decodeTagBody t n rest

mutual

/-- `Decoder.decode` (decoder.go:1520), the inner dispatcher used for
container elements, map keys/values and struct fields.  Its callers in the
modelled universe always hand it a valid non-nil pointer, so the pointer
bookkeeping at its top is invisible here; the `Interface` and double-pointer
arms concern destination types outside the universe.  Note the map arm: it
calls `decodeMap` with `ai = byte(rv.Len())`, which for the fresh (nil) maps
arising here is `0` — a nested map therefore always decodes as empty. -/
def decodeInner (L : Limits) : Nat → RType → List Nat → Res RValue
  | 0, _, s => .fail .outOfFuel s
  | fuel + 1, t, s =>
    match t with
    | .rStruct fields => decodeStructD L fuel fields s
    | .rSlice elem => decodeSliceD L fuel elem s
    | .rMapSS => decodeMapD L fuel .rMapSS 0 s
    | .rInt => decodeBasic L .bInt s
    | .rUint8 => decodeBasic L .bUint8 s
    | .rUInt => decodeBasic L .bUInt s
    | .rFloat64 => decodeBasic L .bFloat64 s
    | .rBool => decodeBasic L .bBool s
    | .rString => decodeBasic L .bString s
termination_by structural fuel t s => fuel

/-- `Decoder.decodeSlice` (decoder.go:1588), the *nested* array path: the
header comes from `readArrayHeader` (which rejects multi-byte length heads),
no element limit is applied (the source's TODO), and `reflect.MakeSlice`
panics on a negative length. -/
def decodeSliceD (L : Limits) : Nat → RType → List Nat → Res RValue
  | 0, _, s => .fail .outOfFuel s
  | fuel + 1, elem, s =>
    (readArrayHeader s).then fun n rest =>
      if n < 0 then .crash "runtime error: makeslice: len out of range"
      else (decodeSliceElems L fuel elem n.toNat rest).then fun xs r => .ok (.slice xs) r
termination_by structural fuel elem s => fuel

/-- The element loop of `decodeSlice`: each element decodes through the inner
`decode` at the element type. -/
def decodeSliceElems (L : Limits) : Nat → RType → Nat → List Nat → Res (List RValue)
  | _, _, 0, s => .ok [] s
  | 0, _, _ + 1, s => .fail .outOfFuel s
  | fuel + 1, elem, cnt + 1, s =>
    (decodeInner L fuel elem s).then fun v rest =>
      (decodeSliceElems L fuel elem cnt rest).then fun xs r => .ok (v :: xs) r
termination_by structural fuel elem cnt s => fuel

/-- `Decoder.decodeMap` (decoder.go:772).  The pair count is read from the
argument and — decisively for the limit claims — `maxMapPairs` is *never*
consulted.  `int(n)` in the loop condition makes counts of `2^63` and above
behave as zero iterations.  The `map[string]string` arm transcribes the
source's String-key/String-value arms; the struct arm builds the field cache
(decoder.go:983-1010) and then runs the key-match loop (decoder.go:1014-1044).
Arms for other map key/value kinds and for `Interface` destinations concern
types outside the modelled universe. -/
def decodeMapD (L : Limits) : Nat → RType → Nat → List Nat → Res RValue
  | 0, _, _, s => .fail .outOfFuel s
  | fuel + 1, t, ai, s =>
    (readArgument ai s).then fun n rest =>
      let cnt := if n < 2 ^ 63 then n else 0
      match t with
      | .rMapSS =>
        (decodeMapSSPairs L fuel cnt [] rest).then fun entries r => .ok (.mapSS entries) r
      | .rStruct fields =>
        (decodeStructMapPairs L fuel fields (buildFieldCache fields) cnt
            (fields.map fun f => (f.name, zeroBasic f.ty)) rest).then
          fun vals r => .ok (.structV vals) r
      | _ => .fail (.cannotUnmarshalMapInto t) rest
termination_by structural fuel t ai s => fuel

/-- The pair loop of `decodeMap` for a `map[string]string` destination: key
and value each decode through the inner `decode` on a fresh `*string`, and
`SetMapIndex` overwrites. -/
def decodeMapSSPairs (L : Limits) :
    Nat → Nat → List (GoStr × GoStr) → List Nat → Res (List (GoStr × GoStr))
  | _, 0, acc, s => .ok acc s
  | 0, _ + 1, _, s => .fail .outOfFuel s
  | fuel + 1, cnt + 1, acc, s =>
    (decodeInner L fuel .rString s).then fun k r =>
      (decodeInner L fuel .rString r).then fun v r2 =>
        match k, v with
        | .str ks, .str vs => decodeMapSSPairs L fuel cnt (alistSet ks vs acc) r2
        | _, _ => .crash "decodeMapSSPairs: inner decode changed type"
termination_by structural fuel cnt acc s => fuel

/-- The struct arm of `decodeMap` (decoder.go:1014-1044): each pair's key is
read by `readMapKey` and stringified; an unmatched key makes the pair's value
be read and discarded by `readValue` (whose failure is wrapped into
"cbor: cannot unmarshal map key into ..."), a matched key decodes into the
field through the inner `decode`. -/
def decodeStructMapPairs (L : Limits) :
    Nat → List StructField → List (GoStr × Nat) → Nat → List (GoStr × RValue) →
    List Nat → Res (List (GoStr × RValue))
  | _, _, _, 0, vals, s => .ok vals s
  | 0, _, _, _ + 1, _, s => .fail .outOfFuel s
  | fuel + 1, fields, cache, cnt + 1, vals, s =>
    (readMapKey L s).then fun key r =>
      match alistFind (keyToString key) cache with
      | none =>
        match readValue L r with
        | .ok _ r2 => decodeStructMapPairs L fuel fields cache cnt vals r2
        | .fail e r2 => .fail (.cannotUnmarshalMapKeyInto e) r2
        | .crash m => .crash m
      | some idx =>
        match fields.get? idx with
        | none => .crash "decodeStructMapPairs: dangling cache index"
        | some f =>
          (decodeInner L fuel f.ty.toR r).then fun v r2 =>
            decodeStructMapPairs L fuel fields cache cnt (vals.set idx (f.name, v)) r2
termination_by structural fuel fields cache cnt vals s => fuel

/-- `Decoder.decodeStruct` (decoder.go:1558), the *nested* struct path: map
header via `readMapHeader`, string keys via `readString`, field lookup by
case-insensitive name (`FieldByNameFunc` + `strings.EqualFold`), and — unlike
the top-level struct path — an *error* for unknown fields. -/
def decodeStructD (L : Limits) : Nat → List StructField → List Nat → Res RValue
  | 0, _, s => .fail .outOfFuel s
  | fuel + 1, fields, s =>
    (readMapHeader s).then fun n rest =>
      (decodeStructLoop L fuel fields (if n < 0 then 0 else n.toNat)
          (fields.map fun f => (f.name, zeroBasic f.ty)) rest).then
        fun vals r => .ok (.structV vals) r
termination_by structural fuel fields s => fuel

/-- The field loop of `decodeStruct`. -/
def decodeStructLoop (L : Limits) :
    Nat → List StructField → Nat → List (GoStr × RValue) → List Nat →
    Res (List (GoStr × RValue))
  | _, _, 0, vals, s => .ok vals s
  | 0, _, _ + 1, _, s => .fail .outOfFuel s
  | fuel + 1, fields, cnt + 1, vals, s =>
    (readString L s).then fun key rest =>
      match fields.findIdx? (fun f => asciiFoldEq f.name key) with
      | none => .fail (.unknownField key) rest
      | some idx =>
        match fields.get? idx with
        | none => .crash "decodeStructLoop: dangling index"
        | some f =>
          (decodeInner L fuel f.ty.toR rest).then fun v r =>
            decodeStructLoop L fuel fields cnt (vals.set idx (f.name, v)) r
termination_by structural fuel fields cnt vals s => fuel

end

/-- The element loop of `Decoder.decodeArray`'s slice arm (decoder.go:726):
non-pointer element types decode through the inner `decode` at the element's
address. -/
def decodeArrayElems (L : Limits) : Nat → RType → Nat → List Nat → Res (List RValue)
  | _, _, 0, s => .ok [] s
  | 0, _, _ + 1, s => .fail .outOfFuel s
  | fuel + 1, elem, cnt + 1, s =>
    (decodeInner L fuel elem s).then fun v rest =>
      (decodeArrayElems L fuel elem cnt rest).then fun xs r => .ok (v :: xs) r

/-- `Decoder.decodeArray` (decoder.go:691), the *top-level* array path: the
length is read from the argument, checked against `maxArrayElements` ("cbor:
array too long") *before* any allocation or element decoding, and a fresh
(nil) slice destination is then made with `reflect.MakeSlice` and filled.
The fixed-size-array and `Interface` arms concern destination types outside
the modelled universe. -/
def decodeArrayD (L : Limits) (fuel : Nat) (t : RType) (ai : Nat) (s : List Nat) :
    Res RValue :=
  (readArgument ai s).then fun n rest =>
    if L.maxArrayElements < n then .fail .arrayTooLong rest
    else
      match t with
      | .rSlice elem =>
        (decodeArrayElems L fuel elem (if n < 2 ^ 63 then n else 0) rest).then
          fun xs r => .ok (.slice xs) r
      | _ => .fail (.cannotUnmarshalArrayInto t) rest

/-- `Decoder.decodeValue` (decoder.go:363): header byte, then dispatch on the
major type. -/
def decodeValue (L : Limits) (fuel : Nat) (t : RType) (s : List Nat) : Res RValue :=
  (readHeader s).then fun mtai rest =>
    if mtai.1 = 0 then decodeUintD t mtai.2 rest
    else if mtai.1 = 1 then decodeIntD t mtai.2 rest
    else if mtai.1 = 2 then decodeBytesD L t mtai.2 rest
    else if mtai.1 = 3 then decodeStringD t mtai.2 rest
    else if mtai.1 = 4 then decodeArrayD L fuel t mtai.2 rest
    else if mtai.1 = 5 then decodeMapD L fuel t mtai.2 rest
    else if mtai.1 = 6 then decodeTagD t mtai.2 rest
    else if mtai.1 = 7 then decodeSimpleValueD t mtai.2 rest
    else .fail .invalidMajorType rest

/-- The destination argument of `Decoder.Decode` / `Unmarshal`, as
`reflect.ValueOf(v)` classifies it: the untyped nil interface (`Decode(nil)`,
the zero `reflect.Value` of `Kind` `Invalid`), a non-pointer value of some
type, a typed nil pointer, or a valid non-nil pointer whose pointee starts at
its zero value (a fresh destination). -/
inductive GoDest where
  | invalid
  | nonPtr (t : RType)
  | nilPtr (t : RType)
  | ptr (t : RType)
deriving DecidableEq, Repr

/-- `Decoder.Decode` (decoder.go:323); `Unmarshal` (decoder.go:233) is
exactly `NewDecoder(bytes.NewReader(data)).Decode(v)`.  A non-pointer
destination and a nil pointer are rejected *before any byte is read*, so the
stream is returned untouched — but for the untyped nil interface the
`rv.Type()` call inside the error construction panics on the zero
`reflect.Value` instead of returning an error.  On success or failure of the
inner `decodeValue` the error is wrapped by `fmt.Errorf("cbor: Decode(%v): %v", ...)`. -/
def Decode (L : Limits) (fuel : Nat) (d : GoDest) (s : List Nat) : Res RValue :=
  match d with
  | .invalid => .crash "reflect: call of reflect.Value.Type on zero Value"
  | .nonPtr t => .fail (.decodeNonPointer t) s
  | .nilPtr t => .fail (.decodeNilPointer t) s
  | .ptr t =>
    match decodeValue L fuel t s with
    | .ok v rest => .ok v rest
    | .fail e rest => .fail (.wrapped e) rest
    | .crash m => .crash m

/-- The byte string "hello". -/
def strHello : GoStr := [0x68, 0x65, 0x6C, 0x6C, 0x6F]

/-- The byte string "world". -/
def strWorld : GoStr := [0x77, 0x6F, 0x72, 0x6C, 0x64]

/-- The untagged exported field `Foo string` of the record used by the
struct-destination claims. -/
def fooField : StructField := { name := [0x46, 0x6F, 0x6F], cborTag := none, ty := .bString }

/-- The head bytes `readValue` (decoder.go:2020) has a case for, spelled as
the source's case list: small unsigned integers (`<= 0x17`), the heads
`0x18..0x1f` and `0x20`/`0x21`/`0x22`, and the byte-string-like heads
`0x30..0x37` and `0x38..0x3f`.  Every other head — in particular every
text-string head (`0x60..0x7B`), array head (`0x80..0x9B`, `0x9F`) and map
head (`0xA0..0xBB`, `0xBF`), all of which are `>= 0x40` — reaches the
default error branch. -/
def readValueHandles (b : Nat) : Prop :=
  b ≤ 0x17 ∨ (0x18 ≤ b ∧ b ≤ 0x1f) ∨ b = 0x20 ∨ b = 0x21 ∨ b = 0x22 ∨
  (0x30 ≤ b ∧ b ≤ 0x37) ∨ (0x38 ≤ b ∧ b ≤ 0x3f)

instance (b : Nat) : Decidable (readValueHandles b) := by
  unfold readValueHandles
  infer_instance

/-- C1: the weak round-trip property fails on the code.  `Encode([]int{25})`
produces `98 01 18 19` (array head with 1-byte length, element head `0x18`
with payload `0x19`), but decoding those bytes back into a fresh `[]int`
yields `[]int{24}` with the payload byte `0x19` left unconsumed: the element
is decoded by `readInt`, which treats the head `0x18` as the immediate value
`0x18 & 0x1f = 24` and never reads the declared 1-byte payload.  The claim
says the round trip yields `[]int{25}` (no float or map-ordering caveats
apply to this value). -/
theorem c1_roundtrip_code_bug :
    Encode 64 (.slice [.int 25]) = .ok [0x98, 0x01, 0x18, 0x19] ∧
    Decode defaultLimits 64 (.ptr (.rSlice .rInt)) [0x98, 0x01, 0x18, 0x19]
      = .ok (.slice [.int 24]) [0x19] :=
  ⟨rfl, rfl⟩

/-- C2: decoding `A1 65 68 65 6C 6C 6F 65 77 6F 72 6C 64` into a
`map[string]string` destination succeeds, consumes all 13 bytes, and yields
exactly the one-entry map sending "hello" to "world". -/
theorem c2_hello_world_map :
    Decode defaultLimits 64 (.ptr .rMapSS)
        [0xA1, 0x65, 0x68, 0x65, 0x6C, 0x6C, 0x6F, 0x65, 0x77, 0x6F, 0x72, 0x6C, 0x64]
      = .ok (.mapSS [(strHello, strWorld)]) [] := rfl

/-- C3 (counterexample): an array item nested inside another container whose
head declares a 2^47-scale length does *not* fail with the LimitExceeded
error.  Decoding `81 9B 00 00 42 FA 42 FA 42 FA 42` into `[][]byte` reaches
the nested-array path (`decodeSlice` → `readArrayHeader`), which rejects the
multi-byte length head `9B` with "cbor: invalid array header: 9B" — a
Malformed-style error, not the "cbor: array too long" limit error the claim
requires for every nesting position. -/
theorem c3_nested_array_counterexample :
    Decode defaultLimits 64 (.ptr (.rSlice (.rSlice .rUint8)))
        [0x81, 0x9B, 0x00, 0x00, 0x42, 0xFA, 0x42, 0xFA, 0x42, 0xFA, 0x42]
      = .fail (.wrapped (.invalidArrayHeader 0x9B))
          [0x00, 0x00, 0x42, 0xFA, 0x42, 0xFA, 0x42, 0xFA, 0x42] := rfl

/-- C3 (amended): for *top-level* array items — the `decodeArray` path — an
8-byte declared length exceeding `maxArrayElements` makes decoding fail with
the "cbor: array too long" limit error immediately after the length field,
with the element bytes still unconsumed (no allocation or element decoding
happens), for every destination type and any fuel. -/
theorem c3_top_level_limit (L : Limits) (fuel : Nat) (t : RType)
    (b0 b1 b2 b3 b4 b5 b6 b7 : Nat) (rest : List Nat)
    (h : L.maxArrayElements <
      (b0 <<< 56 ||| b1 <<< 48 ||| b2 <<< 40 ||| b3 <<< 32 |||
       b4 <<< 24 ||| b5 <<< 16 ||| b6 <<< 8 ||| b7)) :
    decodeArrayD L fuel t 27 (b0 :: b1 :: b2 :: b3 :: b4 :: b5 :: b6 :: b7 :: rest)
      = .fail .arrayTooLong rest := by
  have harg : readArgument 27 (b0 :: b1 :: b2 :: b3 :: b4 :: b5 :: b6 :: b7 :: rest)
      = .ok (b0 <<< 56 ||| b1 <<< 48 ||| b2 <<< 40 ||| b3 <<< 32 |||
             b4 <<< 24 ||| b5 <<< 16 ||| b6 <<< 8 ||| b7) rest := rfl
  unfold decodeArrayD
  rw [harg]
  show (if L.maxArrayElements < _ then _ else _) = _
  rw [if_pos h]

/-- Witness for `c3_top_level_limit` at the spec's 10-byte input
`9B 00 00 42 FA 42 FA 42 FA 42` (after the header byte `9B`, ai 27) with the
default limits. -/
theorem c3_top_level_limit_witness :
    defaultLimits.maxArrayElements <
      (0x00 <<< 56 ||| 0x00 <<< 48 ||| 0x42 <<< 40 ||| 0xFA <<< 32 |||
       0x42 <<< 24 ||| 0xFA <<< 16 ||| 0x42 <<< 8 ||| 0xFA) ∧
    decodeArrayD defaultLimits 64 (.rSlice .rUint8) 27
        [0x00, 0x00, 0x42, 0xFA, 0x42, 0xFA, 0x42, 0xFA, 0x42]
      = .fail .arrayTooLong [0x42] :=
  ⟨by decide,
   c3_top_level_limit defaultLimits 64 (.rSlice .rUint8)
     0x00 0x00 0x42 0xFA 0x42 0xFA 0x42 0xFA [0x42] (by decide)⟩

/-- C4: the map pair-count limit is never enforced.  With `maxMapPairs` set
to 1, decoding the two-pair map `A2 61 61 61 62 61 63 61 64`
(`{"a":"b","c":"d"}`) into a `map[string]string` succeeds and returns both
pairs — `decodeMap` reads the declared pair count and decodes every pair
without ever consulting `maxMapPairs`, contradicting the claim (and the doc
comment on `SetMaxMapPairs`). -/
theorem c4_map_pairs_limit_ignored :
    ({ defaultLimits with maxMapPairs := 1 } : Limits).maxMapPairs = 1 ∧
    Decode { defaultLimits with maxMapPairs := 1 } 64 (.ptr .rMapSS)
        [0xA2, 0x61, 0x61, 0x61, 0x62, 0x61, 0x63, 0x61, 0x64]
      = .ok (.mapSS [([0x61], [0x62]), ([0x63], [0x64])]) [] :=
  ⟨rfl, rfl⟩

/-- C5: a major-type-7 item with ai 25 (float16) is *rejected*, not decoded:
`decodeSimpleValue` returns the error "cbor: float16 not supported" without
even consuming the 2-byte payload.  Here `F9 3C 00` (binary16 for 1.0) into a
`float64` destination fails, where the claim requires success with the
widened half-precision value. -/
theorem c5_float16_rejected :
    Decode defaultLimits 64 (.ptr .rFloat64) [0xF9, 0x3C, 0x00]
      = .fail (.wrapped .float16NotSupported) [0x3C, 0x00] := rfl

/-- C6: major-type-1 decoding yields `-1 - arg` at the top level (`20` → −1,
`37` → −24 as the claim's examples require), but *not* as an element of an
enclosing array: decoding `81 20` (the array `[-1]`) into `[]int` fails,
because the element path goes through `readInt`, whose `0x20` case reads an
8-byte unsigned payload (hitting EOF here) and never negates. -/
theorem c6_negative_int_nested_broken :
    Decode defaultLimits 64 (.ptr .rInt) [0x20] = .ok (.int (-1)) [] ∧
    Decode defaultLimits 64 (.ptr .rInt) [0x37] = .ok (.int (-24)) [] ∧
    Decode defaultLimits 64 (.ptr (.rSlice .rInt)) [0x81, 0x20]
      = .fail (.wrapped .eof) [] :=
  ⟨rfl, rfl, rfl⟩

/-- C7 (counterexample): an unrecognised tag is *not* transparent.  Decoding
`D8 64 01` (tag 100 wrapping the integer 1) into an `int` destination fails
with "cbor: unknown tag 100", leaving the inner item unconsumed, where the
claim requires the decode to succeed with the inner value 1. -/
theorem c7_unknown_tag_counterexample :
    Decode defaultLimits 64 (.ptr .rInt) [0xD8, 0x64, 0x01]
      = .fail (.wrapped (.unknownTag 100)) [0x01] := rfl

/-- C7 (amended): for every tag number outside the recognised set
{0,...,5, 21,...,29}, `decodeTag` — once the tag number has been read —
fails with the "cbor: unknown tag N" error for every destination type,
consuming nothing further; the tag is never transparently discarded. -/
theorem c7_unknown_tag_errors (t : RType) (n : Nat) (s : List Nat)
    (h : n ∉ knownTagNumbers) :
    decodeTagBody t n s = .fail (.unknownTag n) s := by
  unfold decodeTagBody
  rw [if_neg h]

/-- Witness for `c7_unknown_tag_errors` at tag number 1000. -/
theorem c7_unknown_tag_errors_witness :
    1000 ∉ knownTagNumbers ∧
    decodeTagBody .rInt 1000 [0x01] = .fail (.unknownTag 1000) [0x01] :=
  ⟨by decide, c7_unknown_tag_errors .rInt 1000 [0x01] (by decide)⟩

/-- C8 (counterexample): a pair whose key matches no field selector is *not*
discarded without error for every value shape.  Decoding `A1 61 78 61 79`
(`{"x":"y"}`) into the record `struct { Foo string }` fails: the unmatched
key "x" routes the value to `readValue`, which cannot skip a text string
(head `0x61`) and errors, where the claim requires the pair to be consumed
and discarded silently. -/
theorem c8_unknown_key_string_value_counterexample :
    Decode defaultLimits 64 (.ptr (.rStruct [fooField]))
        [0xA1, 0x61, 0x78, 0x61, 0x79]
      = .fail (.wrapped (.cannotUnmarshalMapKeyInto (.invalidValue 0x61))) [0x79] := rfl

/-- Helper for C8: `readValue` on any head byte outside its case list fails
with "cbor: invalid value: %X", consuming only the head byte — for every
limit configuration and every remaining stream. -/
theorem readValue_unhandled (L : Limits) (b : Nat) (rest : List Nat)
    (hb : ¬ readValueHandles b) :
    readValue L (b :: rest) = .fail (.invalidValue b) rest := by
  simp only [readValueHandles, not_or] at hb
  obtain ⟨h1, h2, h3, h4, h5, h6, h7⟩ := hb
  simp only [readValue, readByte, Res.then]
  rw [if_neg h1, if_neg h2, if_neg h3, if_neg h4, if_neg h5, if_neg h6, if_neg h7]

/-- C8 (amended): the general discard boundary of the struct arm of
`decodeMap`, for every record (`fields`), every limit configuration, every
position in the pair sequence (`fuel`, `cnt`, accumulated field values
`vals`), and every pair whose key matches no selector of the record's field
cache:
(1) whenever `readValue` succeeds on the pair's value, the pair is consumed
    and discarded *without error* and the record's field values pass through
    *unchanged* (so fields the pair sequence never matches keep the zero
    values they were initialised to);
(2) whenever the value's head byte is outside `readValue`'s case list, the
    decode *fails*, with the `readValue` error wrapped in
    "cbor: cannot unmarshal map key into";
(3) `readValue` itself fails on every such head byte, for every stream;
(4) every head byte `>= 0x40` — which covers all text-string, array and map
    value shapes — is outside that case list;
(5) end to end on the spec's shape: `A1 61 61 05` (`{"a":5}`) into
    `struct { Foo string }` succeeds with the unmatched pair discarded and
    `Foo` retaining its zero value "". -/
theorem c8_unknown_key_discard_boundary (L : Limits) (fuel cnt : Nat)
    (fields : List StructField) (vals : List (GoStr × RValue))
    (s r : List Nat) (key : MapKey)
    (hkey : readMapKey L s = .ok key r)
    (hmiss : alistFind (keyToString key) (buildFieldCache fields) = none) :
    (∀ mk rv2, readValue L r = .ok mk rv2 →
      decodeStructMapPairs L (fuel + 1) fields (buildFieldCache fields) (cnt + 1) vals s
        = decodeStructMapPairs L fuel fields (buildFieldCache fields) cnt vals rv2) ∧
    (∀ b rest2, r = b :: rest2 → ¬ readValueHandles b →
      decodeStructMapPairs L (fuel + 1) fields (buildFieldCache fields) (cnt + 1) vals s
        = .fail (.cannotUnmarshalMapKeyInto (.invalidValue b)) rest2) ∧
    (∀ b rest2, ¬ readValueHandles b →
      readValue L (b :: rest2) = .fail (.invalidValue b) rest2) ∧
    (∀ b, 0x40 ≤ b → ¬ readValueHandles b) ∧
    Decode defaultLimits 64 (.ptr (.rStruct [fooField])) [0xA1, 0x61, 0x61, 0x05]
      = .ok (.structV [([0x46, 0x6F, 0x6F], .str [])]) [] := by
  refine ⟨?_, ?_, ?_, ?_, rfl⟩
  · intro mk rv2 hval
    simp only [decodeStructMapPairs, hkey, Res.then, hmiss, hval]
  · intro b rest2 hr hb
    subst hr
    simp only [decodeStructMapPairs, hkey, Res.then, hmiss, readValue_unhandled L b rest2 hb]
  · intro b rest2 hb
    exact readValue_unhandled L b rest2 hb
  · intro b hbig
    simp only [readValueHandles, not_or]
    omega

/-- Witness for `c8_unknown_key_discard_boundary`, applying it to the spec's
input `{"a":5}` into `struct { Foo string }`: the key "a" (bytes `61 61`)
matches no selector, the value head `0x05` is a small unsigned integer, and
the pair is discarded leaving the zero-initialised field values unchanged. -/
theorem c8_unknown_key_discard_boundary_witness :
    readMapKey defaultLimits [0x61, 0x61, 0x05] = .ok (.kStr [0x61]) [0x05] ∧
    alistFind (keyToString (.kStr [0x61])) (buildFieldCache [fooField]) = none ∧
    readValue defaultLimits [0x05] = .ok (.kInt 5) [] ∧
    decodeStructMapPairs defaultLimits 64 [fooField] (buildFieldCache [fooField]) 1
        [(fooField.name, zeroBasic fooField.ty)] [0x61, 0x61, 0x05]
      = decodeStructMapPairs defaultLimits 63 [fooField] (buildFieldCache [fooField]) 0
          [(fooField.name, zeroBasic fooField.ty)] [] :=
  ⟨rfl, rfl, rfl,
   (c8_unknown_key_discard_boundary defaultLimits 63 0 [fooField]
       [(fooField.name, zeroBasic fooField.ty)] [0x61, 0x61, 0x05] [0x05]
       (.kStr [0x61]) rfl rfl).1 (.kInt 5) [] rfl⟩

/-- C9: the reserved additional-information values 28, 29 and 30 are *not*
rejected: `decodeUint`'s default branch treats them as immediate arguments,
so the single-byte inputs `1C`/`1D`/`1E` (major type 0) decode into an `int`
destination as 28/29/30 with no error, where the claim requires a Malformed
error. -/
theorem c9_reserved_ai_accepted :
    Decode defaultLimits 64 (.ptr .rInt) [0x1C] = .ok (.int 28) [] ∧
    Decode defaultLimits 64 (.ptr .rInt) [0x1D] = .ok (.int 29) [] ∧
    Decode defaultLimits 64 (.ptr .rInt) [0x1E] = .ok (.int 30) [] :=
  ⟨rfl, rfl, rfl⟩

/-- C10 (counterexample): passing the untyped nil interface — a destination
that is not a pointer — to `Decode` does not return an error: the error
construction calls `rv.Type()` on the zero `reflect.Value` and panics,
so the call never returns at all. -/
theorem c10_nil_interface_counterexample :
    Decode defaultLimits 64 .invalid [0x01]
      = .crash "reflect: call of reflect.Value.Type on zero Value" := rfl

/-- C10 (amended): for every *typed* non-pointer destination and every nil
(typed) pointer destination, `Decode` returns an error — the
"cbor: Decode(non-pointer T)" / "cbor: Decode(nil *T)" errors — and consumes
no bytes from the input stream: the remaining stream equals the input, for
all limits and fuel. -/
theorem c10_invalid_dest_no_consumption (L : Limits) (fuel : Nat) (t : RType)
    (s : List Nat) :
    Decode L fuel (.nonPtr t) s = .fail (.decodeNonPointer t) s ∧
    Decode L fuel (.nilPtr t) s = .fail (.decodeNilPointer t) s :=
  ⟨rfl, rfl⟩

end PicatzCbor
